import Mathlib

/-!
Verification of the Foreman provider API layer (hosts / hostgroups):
JSON marshal/unmarshal conventions, CRUD request construction, the retry
loop of the mutating operations, and the power/boot command dispatch.

The Go code is shallowly embedded: JSON values are the inductive `Json`
below, Go `interface` values fetched from a decoded JSON object are
`Option Json` (with `none` for a nil / missing entry), and fallible
decoding returns `Except String`.
-/

namespace Foreman

/-- JSON wire values.  Numbers are modelled as integers: every numeric wire
value the provider exchanges (ids, foreign keys) is integral.  Objects keep
their fields as an association list; the embedding lists fields in the
source's insertion order (Go would sort map keys when printing, which no
property below depends on). -/
inductive Json where
  | null
  | bool (b : Bool)
  | num (n : Int)
  | str (s : String)
  | arr (xs : List Json)
  | obj (fields : List (String × Json))

/-- Go map indexing `m[k]` on a decoded JSON object: the value when the key
is present, `none` (nil) when absent. -/
def jLookup (fs : List (String × Json)) (k : String) : Option Json :=
  match fs with
  | [] => none
  | (k', v) :: rest => if k' = k then some v else jLookup rest k

/-- Go type assertion `v.(bool)` followed by the comma-ok default: the bool
when the dynamic type is bool, otherwise the zero value `false`. -/
def asBool : Option Json → Bool
  | some (Json.bool b) => b
  | _ => false

/-- Go type assertion `v.(string)` with comma-ok: `some s` when the dynamic
type is string, `none` otherwise (the caller then substitutes a default). -/
def asString : Option Json → Option String
  | some (Json.str s) => some s
  | _ => none

/-- Decimal digit value of a character, `none` for a non-digit. -/
def digitVal (c : Char) : Option Nat :=
  if '0' ≤ c ∧ c ≤ '9' then some (c.toNat - '0'.toNat) else none

/-- Accumulate a decimal numeral; fails on the first non-digit. -/
def parseDigitsAux : List Char → Nat → Option Nat
  | [], acc => some acc
  | c :: cs, acc =>
    match digitVal c with
    | some d => parseDigitsAux cs (acc * 10 + d)
    | none => none

/-- Modelled from the spec: the strconv.Atoi step of the shared helper
`unmarshalInteger`, which is not under src.  A decimal numeral (optional
sign) parses to its value; anything else (including the empty string)
yields 0, matching "anything else (null, missing, non-numeric) becomes 0"
in spec section 4.1. -/
def strToIntOr0 (s : String) : Int :=
  match s.data with
  | [] => 0
  | '-' :: cs =>
    match cs, parseDigitsAux cs 0 with
    | _ :: _, some n => -(n : Int)
    | _, _ => 0
  | '+' :: cs =>
    match cs, parseDigitsAux cs 0 with
    | _ :: _, some n => (n : Int)
    | _, _ => 0
  | cs =>
    match parseDigitsAux cs 0 with
    | some n => (n : Int)
    | none => 0

/-- Modelled from the spec: the shared helper `intIdToJSONString` is not
under src.  Spec section 4.1: "if the value is 0 (unset), emit it as an
empty string rather than the number 0 or omitting the key; if nonzero,
emit the decimal string of the integer." -/
def intIdToJSONString (id : Int) : Json :=
  if id = 0 then Json.str "" else Json.str (toString id)

/-- Modelled from the spec: the shared helper `unmarshalInteger` is not
under src.  Spec section 4.1: "inbound (unmarshal) does the reverse — a
numeric or numeric-string value becomes an integer, anything else (null,
missing, non-numeric) becomes 0."  The argument is the Go interface value
fetched from the decoded response map (`none` models a missing key). -/
def unmarshalInteger : Option Json → Int
  | some (Json.num n) => n
  | some (Json.str s) => strToIntOr0 s
  | _ => 0

/-- Does the character list start with the pattern? -/
def listStartsWith : List Char → List Char → Bool
  | _, [] => true
  | [], _ :: _ => false
  | c :: cs, p :: ps => c == p && listStartsWith cs ps

/-- Substring test over character lists (Go strings.Contains). -/
def listContainsSub : List Char → List Char → Bool
  | [], pat => listStartsWith [] pat
  | c :: cs, pat => listStartsWith (c :: cs) pat || listContainsSub cs pat

/-- Go strings.Contains. -/
def strContains (s sub : String) : Bool :=
  listContainsSub s.data sub.data

/-- Replace the first occurrence of the pattern (Go strings.Replace with
count 1), over character lists. -/
def listReplaceFirst : List Char → List Char → List Char → List Char
  | [], _, _ => []
  | c :: cs, pat, repl =>
    if listStartsWith (c :: cs) pat then repl ++ (c :: cs).drop pat.length
    else c :: listReplaceFirst cs pat repl

/-- Go strings.Replace(s, old, new, 1). -/
def strReplaceFirst (s pat repl : String) : String :=
  ⟨listReplaceFirst s.data pat.data repl.data⟩

/-- Modelled from the spec: the common base object embedded by every
entity is not under src.  Spec section 3: all entities share a base record
with an integer Id (unset = 0) and a Name string. -/
structure ForemanObject where
  id : Int
  name : String

/-- Modelled from the spec: the ForemanKVParameter record is not under
src.  Spec section 3: an element of the key/value parameter collections,
a simple name/value pair, with wire keys "name" and "value". -/
structure ForemanKVParameter where
  name : String
  value : String

/-- ForemanInterfacesAttribute (src/foreman/api/host.go): a host's network
interface.  Field order and the omitempty markers follow the struct tags. -/
structure ForemanInterfacesAttribute where
  id : Int
  subnetId : Int
  identifier : String
  name : String
  username : String
  password : String
  managed : Bool
  provision : Bool
  virtual : Bool
  primary : Bool
  ip : String
  mac : String
  type : String
  provider : String
  attachedDevices : String
  attachedTo : String
  computeAttributes : List (String × Json)
  destroy : Bool

/-- ForemanHost (src/foreman/api/host.go). -/
structure ForemanHost where
  foremanObject : ForemanObject
  build : Bool
  method : String
  domainId : Int
  domainName : String
  environmentId : Int
  hostgroupId : Int
  operatingSystemId : Int
  mediumId : Int
  imageId : Int
  enableBMC : Bool
  bmcSuccess : Bool
  comment : String
  interfacesAttributes : List ForemanInterfacesAttribute
  hostParameters : List ForemanKVParameter
  computeResourceId : Int
  computeProfileId : Int

/-- Go zero value of ForemanInterfacesAttribute. -/
def zeroInterfacesAttribute : ForemanInterfacesAttribute :=
  { id := 0, subnetId := 0, identifier := "", name := "", username := "",
    password := "", managed := false, provision := false, virtual := false,
    primary := false, ip := "", mac := "", type := "", provider := "",
    attachedDevices := "", attachedTo := "", computeAttributes := [],
    destroy := false }

/-- Go zero value of ForemanHost (what `var createdHost ForemanHost`
declares before any successful SendAndParse writes into it). -/
def zeroForemanHost : ForemanHost :=
  { foremanObject := { id := 0, name := "" }, build := false, method := "",
    domainId := 0, domainName := "", environmentId := 0, hostgroupId := 0,
    operatingSystemId := 0, mediumId := 0, imageId := 0, enableBMC := false,
    bmcSuccess := false, comment := "", interfacesAttributes := [],
    hostParameters := [], computeResourceId := 0, computeProfileId := 0 }

/-- Standard Go json marshal of a ForemanKVParameter. -/
def marshalKVParameter (p : ForemanKVParameter) : Json :=
  Json.obj [("name", Json.str p.name), ("value", Json.str p.value)]

/-- Standard Go json marshal of a ForemanInterfacesAttribute, following the
struct tags: fields in declaration order, omitempty fields dropped at their
zero value.  In particular "_destroy" is emitted only when the flag is true
(host.go lines 111-121). -/
def marshalInterfacesAttributeFields (ia : ForemanInterfacesAttribute) :
    List (String × Json) :=
  (if ia.id = 0 then [] else [("id", Json.num ia.id)]) ++
  (if ia.subnetId = 0 then [] else [("subnet_id", Json.num ia.subnetId)]) ++
  [("identifier", Json.str ia.identifier), ("name", Json.str ia.name)] ++
  (if ia.username = "" then [] else [("username", Json.str ia.username)]) ++
  (if ia.password = "" then [] else [("password", Json.str ia.password)]) ++
  [("managed", Json.bool ia.managed), ("provision", Json.bool ia.provision),
   ("virtual", Json.bool ia.virtual), ("primary", Json.bool ia.primary),
   ("ip", Json.str ia.ip), ("mac", Json.str ia.mac),
   ("type", Json.str ia.type), ("provider", Json.str ia.provider)] ++
  (if ia.attachedDevices = "" then []
   else [("attached_devices", Json.str ia.attachedDevices)]) ++
  (if ia.attachedTo = "" then [] else [("attached_to", Json.str ia.attachedTo)]) ++
  (if ia.computeAttributes.isEmpty then []
   else [("compute_attributes", Json.obj ia.computeAttributes)]) ++
  (if ia.destroy then [("_destroy", Json.bool ia.destroy)] else [])

def marshalInterfacesAttribute (ia : ForemanInterfacesAttribute) : Json :=
  Json.obj (marshalInterfacesAttributeFields ia)

/-- ForemanHost.MarshalJSON (host.go lines 148-174): builds a map with the
listed keys, converting every foreign key through intIdToJSONString and
adding the two nested collections only when non-empty. -/
def marshalHostFields (fh : ForemanHost) : List (String × Json) :=
  [("name", Json.str fh.foremanObject.name),
   ("comment", Json.str fh.comment),
   ("build", Json.bool fh.build),
   ("provision_method", Json.str fh.method),
   ("domain_id", intIdToJSONString fh.domainId),
   ("operatingsystem_id", intIdToJSONString fh.operatingSystemId),
   ("medium_id", intIdToJSONString fh.mediumId),
   ("image_id", intIdToJSONString fh.imageId),
   ("hostgroup_id", intIdToJSONString fh.hostgroupId),
   ("environment_id", intIdToJSONString fh.environmentId),
   ("compute_resource_id", intIdToJSONString fh.computeResourceId),
   ("compute_profile_id", intIdToJSONString fh.computeProfileId)] ++
  (if 0 < fh.interfacesAttributes.length then
    [("interfaces_attributes",
      Json.arr (fh.interfacesAttributes.map marshalInterfacesAttribute))]
   else []) ++
  (if 0 < fh.hostParameters.length then
    [("host_parameters_attributes",
      Json.arr (fh.hostParameters.map marshalKVParameter))]
   else [])

def marshalHost (fh : ForemanHost) : Json :=
  Json.obj (marshalHostFields fh)

/-! Decoding.  Standard Go json.Unmarshal semantics for a struct field:
a missing key or a JSON null leaves the zero value, a value of the matching
type is taken, and a value of any other type makes Unmarshal return an
error. -/

def decStringField (fs : List (String × Json)) (k : String) : Except String String :=
  match jLookup fs k with
  | none => Except.ok ""
  | some Json.null => Except.ok ""
  | some (Json.str s) => Except.ok s
  | some _ => Except.error ("json: cannot unmarshal into string field " ++ k)

def decBoolField (fs : List (String × Json)) (k : String) : Except String Bool :=
  match jLookup fs k with
  | none => Except.ok false
  | some Json.null => Except.ok false
  | some (Json.bool b) => Except.ok b
  | some _ => Except.error ("json: cannot unmarshal into bool field " ++ k)

def decIntField (fs : List (String × Json)) (k : String) : Except String Int :=
  match jLookup fs k with
  | none => Except.ok 0
  | some Json.null => Except.ok 0
  | some (Json.num n) => Except.ok n
  | some _ => Except.error ("json: cannot unmarshal into int field " ++ k)

def decObjField (fs : List (String × Json)) (k : String) :
    Except String (List (String × Json)) :=
  match jLookup fs k with
  | none => Except.ok []
  | some Json.null => Except.ok []
  | some (Json.obj m) => Except.ok m
  | some _ => Except.error ("json: cannot unmarshal into map field " ++ k)

/-- Modelled from the spec: decoding of the shared base object (not under
src) — a standard json decode of the Id/Name record of spec section 3. -/
def decodeForemanObject (fs : List (String × Json)) : Except String ForemanObject := do
  let id ← decIntField fs "id"
  let name ← decStringField fs "name"
  Except.ok { id := id, name := name }

/-- Standard Go json decode of a ForemanKVParameter element. -/
def decodeKVParameter : Json → Except String ForemanKVParameter
  | Json.null => Except.ok { name := "", value := "" }
  | Json.obj fs => do
    let name ← decStringField fs "name"
    let value ← decStringField fs "value"
    Except.ok { name := name, value := value }
  | _ => Except.error "json: cannot unmarshal into ForemanKVParameter"

/-- Standard Go json decode of a ForemanInterfacesAttribute element,
following the struct tags of host.go lines 88-121. -/
def decodeInterfacesAttribute : Json → Except String ForemanInterfacesAttribute
  | Json.null => Except.ok zeroInterfacesAttribute
  | Json.obj fs => do
    let id ← decIntField fs "id"
    let subnetId ← decIntField fs "subnet_id"
    let identifier ← decStringField fs "identifier"
    let name ← decStringField fs "name"
    let username ← decStringField fs "username"
    let password ← decStringField fs "password"
    let managed ← decBoolField fs "managed"
    let provision ← decBoolField fs "provision"
    let virtual ← decBoolField fs "virtual"
    let primary ← decBoolField fs "primary"
    let ip ← decStringField fs "ip"
    let mac ← decStringField fs "mac"
    let typ ← decStringField fs "type"
    let provider ← decStringField fs "provider"
    let attachedDevices ← decStringField fs "attached_devices"
    let attachedTo ← decStringField fs "attached_to"
    let computeAttributes ← decObjField fs "compute_attributes"
    let destroy ← decBoolField fs "_destroy"
    Except.ok { id := id, subnetId := subnetId, identifier := identifier,
                name := name, username := username, password := password,
                managed := managed, provision := provision, virtual := virtual,
                primary := primary, ip := ip, mac := mac, type := typ,
                provider := provider, attachedDevices := attachedDevices,
                attachedTo := attachedTo, computeAttributes := computeAttributes,
                destroy := destroy }
  | _ => Except.error "json: cannot unmarshal into ForemanInterfacesAttribute"

/-- Decode every element of a JSON array. -/
def decodeJsonList {α : Type} (dec : Json → Except String α) :
    List Json → Except String (List α)
  | [] => Except.ok []
  | x :: xs => do
    let a ← dec x
    let as ← decodeJsonList dec xs
    Except.ok (a :: as)

/-- Decode of the helper struct foremanHostJSON (host.go lines 123-126):
the interfaces collection is read from the wire key "interfaces". -/
def decodeHostInterfaces (fs : List (String × Json)) :
    Except String (List ForemanInterfacesAttribute) :=
  match jLookup fs "interfaces" with
  | none => Except.ok []
  | some Json.null => Except.ok []
  | some (Json.arr xs) => decodeJsonList decodeInterfacesAttribute xs
  | some _ => Except.error "json: cannot unmarshal into interfaces"

/-- Decode of the helper struct foremanHostParameterJSON (host.go lines
83-85): the parameter collection is read from the wire key
"host_parameters_attributes". -/
def decodeHostParameterList (fs : List (String × Json)) :
    Except String (List ForemanKVParameter) :=
  match jLookup fs "host_parameters_attributes" with
  | none => Except.ok []
  | some Json.null => Except.ok []
  | some (Json.arr xs) => decodeJsonList decodeKVParameter xs
  | some _ => Except.error "json: cannot unmarshal into host_parameters_attributes"

/-- ForemanHost.UnmarshalJSON (host.go lines 178-243).  Decodes the base
object, the two helper structs, and then reads the remaining properties
from the generic map with comma-ok type assertions; the remaining foreign
keys go through unmarshalInteger.  ImageId, EnableBMC and BMCSuccess are
never assigned and keep the zero value (in particular the image_id wire
key is not read).  Finally the domain name is stripped from the name. -/
def decodeHost : Json → Except String ForemanHost
  | Json.obj fs => do
    let fo ← decodeForemanObject fs
    let ifaces ← decodeHostInterfaces fs
    let params ← decodeHostParameterList fs
    let build := asBool (jLookup fs "build")
    let method := (asString (jLookup fs "method")).getD "build"
    let comment := (asString (jLookup fs "comment")).getD ""
    let domainName := (asString (jLookup fs "domain_name")).getD ""
    let name :=
      if domainName != "" && strContains fo.name domainName then
        strReplaceFirst fo.name ("." ++ domainName) ""
      else fo.name
    Except.ok
      { foremanObject := { id := fo.id, name := name },
        build := build, method := method,
        domainId := unmarshalInteger (jLookup fs "domain_id"),
        domainName := domainName,
        environmentId := unmarshalInteger (jLookup fs "environment_id"),
        hostgroupId := unmarshalInteger (jLookup fs "hostgroup_id"),
        operatingSystemId := unmarshalInteger (jLookup fs "operatingsystem_id"),
        mediumId := unmarshalInteger (jLookup fs "medium_id"),
        imageId := 0, enableBMC := false, bmcSuccess := false,
        comment := comment,
        interfacesAttributes := ifaces, hostParameters := params,
        computeResourceId := unmarshalInteger (jLookup fs "compute_resource_id"),
        computeProfileId := unmarshalInteger (jLookup fs "compute_profile_id") }
  | _ => Except.error "json: cannot unmarshal into ForemanHost"

/-- ForemanHostgroup (src/unnamed/part_000). -/
structure ForemanHostgroup where
  foremanObject : ForemanObject
  title : String
  rootPassword : String
  architectureId : Int
  computeProfileId : Int
  domainId : Int
  environmentId : Int
  mediumId : Int
  operatingSystemId : Int
  parentId : Int
  partitionTableId : Int
  puppetCAProxyId : Int
  puppetProxyId : Int
  realmId : Int
  subnetId : Int
  pxeLoader : String
  hostGroupParameters : List ForemanKVParameter

/-- ForemanHostgroup.MarshalJSON (part_000 lines 77-109): the computed
title is omitted; every foreign key goes through intIdToJSONString; the
parameter collection is added only when non-empty. -/
def marshalHostgroupFields (fh : ForemanHostgroup) : List (String × Json) :=
  [("name", Json.str fh.foremanObject.name),
   ("root_pass", Json.str fh.rootPassword),
   ("pxe_loader", Json.str fh.pxeLoader),
   ("architecture_id", intIdToJSONString fh.architectureId),
   ("compute_profile_id", intIdToJSONString fh.computeProfileId),
   ("domain_id", intIdToJSONString fh.domainId),
   ("environment_id", intIdToJSONString fh.environmentId),
   ("medium_id", intIdToJSONString fh.mediumId),
   ("operatingsystem_id", intIdToJSONString fh.operatingSystemId),
   ("parent_id", intIdToJSONString fh.parentId),
   ("ptable_id", intIdToJSONString fh.partitionTableId),
   ("puppet_ca_proxy_id", intIdToJSONString fh.puppetCAProxyId),
   ("puppet_proxy_id", intIdToJSONString fh.puppetProxyId),
   ("realm_id", intIdToJSONString fh.realmId),
   ("subnet_id", intIdToJSONString fh.subnetId)] ++
  (if 0 < fh.hostGroupParameters.length then
    [("group_parameters_attributes",
      Json.arr (fh.hostGroupParameters.map marshalKVParameter))]
   else [])

def marshalHostgroup (fh : ForemanHostgroup) : Json :=
  Json.obj (marshalHostgroupFields fh)

/-- Decode of the helper struct foremanHostGroupParameterJSON (part_000
lines 72-74): the parameter collection is read from the wire key
"group_parameters_attributes". -/
def decodeGroupParameterList (fs : List (String × Json)) :
    Except String (List ForemanKVParameter) :=
  match jLookup fs "group_parameters_attributes" with
  | none => Except.ok []
  | some Json.null => Except.ok []
  | some (Json.arr xs) => decodeJsonList decodeKVParameter xs
  | some _ => Except.error "json: cannot unmarshal into group_parameters_attributes"

/-- ForemanHostgroup.UnmarshalJSON (part_000 lines 111-158).  The base
object and the parameter helper struct are decoded, the root password is
read from the key "root_password" (the marshaller writes "root_pass"),
every listed foreign key goes through unmarshalInteger, and Title is never
assigned (zero value). -/
def decodeHostgroup : Json → Except String ForemanHostgroup
  | Json.obj fs => do
    let fo ← decodeForemanObject fs
    let params ← decodeGroupParameterList fs
    let rootPassword := (asString (jLookup fs "root_password")).getD ""
    let pxeLoader := (asString (jLookup fs "pxe_loader")).getD ""
    Except.ok
      { foremanObject := fo, title := "", rootPassword := rootPassword,
        architectureId := unmarshalInteger (jLookup fs "architecture_id"),
        computeProfileId := unmarshalInteger (jLookup fs "compute_profile_id"),
        domainId := unmarshalInteger (jLookup fs "domain_id"),
        environmentId := unmarshalInteger (jLookup fs "environment_id"),
        mediumId := unmarshalInteger (jLookup fs "medium_id"),
        operatingSystemId := unmarshalInteger (jLookup fs "operatingsystem_id"),
        parentId := unmarshalInteger (jLookup fs "parent_id"),
        partitionTableId := unmarshalInteger (jLookup fs "ptable_id"),
        puppetCAProxyId := unmarshalInteger (jLookup fs "puppet_ca_proxy_id"),
        puppetProxyId := unmarshalInteger (jLookup fs "puppet_proxy_id"),
        realmId := unmarshalInteger (jLookup fs "realm_id"),
        subnetId := unmarshalInteger (jLookup fs "subnet_id"),
        pxeLoader := pxeLoader, hostGroupParameters := params }
  | _ => Except.error "json: cannot unmarshal into ForemanHostgroup"

/-! The client operations.  The transport collaborator (NewRequest plus
SendAndParse, spec section 6) is not part of this layer; a run of an
operation is parameterised by an oracle giving each attempt's
send-and-parse outcome: attempt i either fails with an error string or
succeeds and decodes the response into the output argument. -/

/-- An HTTP request as this layer builds it. -/
structure Request where
  method : String
  path : String
  body : Json

/-- Modelled from the spec: the shared helper WrapJson is not under src.
Spec section 4.4: "Wraps the entity under a single named top-level JSON
key (the entity's conventional wire name) before sending". -/
def wrapJson (key : String) (v : Json) : Json :=
  Json.obj [(key, v)]

/-- The retry loop shared by CreateHost (host.go 340-352), UpdateHost
(415-427) and SendPowerCommand (278-290):

for retry < retryCount: run SendAndParse; on error increment retry and
continue, on success keep the decoded value and break.

The first argument of the triple counts the sends performed, the second is
the final value of sendErr (nil when the loop was never entered or the
last send succeeded), the third the decoded value of the last successful
send.  `remaining` is retryCount minus the failures so far; `attempt`
counts the sends already performed. -/
def retryLoop {α : Type} (transport : Nat → Except String α) :
    Nat → Nat → Option String → Nat × Option String × Option α
  | 0, attempt, lastErr => (attempt, lastErr, none)
  | remaining + 1, attempt, _ =>
    match transport attempt with
    | Except.error e => retryLoop transport remaining (attempt + 1) (some e)
    | Except.ok a => (attempt + 1, none, some a)

/-- Run the retry loop with a Go int budget: a budget of at most 0 gives
no iterations (`retry < retryCount` fails at once). -/
def runRetry {α : Type} (transport : Nat → Except String α) (retryCount : Int) :
    Nat × Option String × Option α :=
  retryLoop transport retryCount.toNat 0 none

/-- Outcome of a host-returning mutating operation: the request it built,
the number of sends performed, and the returned value or error. -/
structure HostOpResult where
  request : Request
  sends : Nat
  result : Except String ForemanHost

/-- Client.CreateHost (host.go lines 317-361): wraps the marshalled host
under the key "host", POSTs to /hosts, retries SendAndParse up to
retryCount times, and returns the decoded host — the zero-valued
`var createdHost ForemanHost` when no send ever ran. -/
def createHost (h : ForemanHost) (retryCount : Int)
    (transport : Nat → Except String ForemanHost) : HostOpResult :=
  let req : Request :=
    { method := "POST", path := "/hosts", body := wrapJson "host" (marshalHost h) }
  match runRetry transport retryCount with
  | (sends, some e, _) => { request := req, sends := sends, result := Except.error e }
  | (sends, none, some created) =>
    { request := req, sends := sends, result := Except.ok created }
  | (sends, none, none) =>
    { request := req, sends := sends, result := Except.ok zeroForemanHost }

/-- Client.UpdateHost (host.go lines 393-436): wraps under "host", PUTs to
/hosts/<id>, and runs the same retry loop into `var updatedHost`. -/
def updateHost (h : ForemanHost) (retryCount : Int)
    (transport : Nat → Except String ForemanHost) : HostOpResult :=
  let req : Request :=
    { method := "PUT", path := "/hosts/" ++ toString h.foremanObject.id,
      body := wrapJson "host" (marshalHost h) }
  match runRetry transport retryCount with
  | (sends, some e, _) => { request := req, sends := sends, result := Except.error e }
  | (sends, none, some updated) =>
    { request := req, sends := sends, result := Except.ok updated }
  | (sends, none, none) =>
    { request := req, sends := sends, result := Except.ok zeroForemanHost }

/-- Power struct (host.go lines 131-134), both fields omitempty. -/
structure Power where
  powerAction : String
  power : Bool

/-- Anonymous struct nested in BMCBoot (host.go lines 141-144). -/
structure BMCBootInner where
  action : String
  result : Bool

/-- BMCBoot struct (host.go lines 139-145). -/
structure BMCBoot where
  device : String
  boot : BMCBootInner

/-- The dynamic value SendPowerCommand accepts as `cmd interface`: a Power
value, a BMCBoot value, or anything else (carrying its printed form for
the error message of the default switch case). -/
inductive PowerCmdValue where
  | powerCmd (p : Power)
  | bootCmd (b : BMCBoot)
  | otherCmd (printed : String)

/-- Standard Go json marshal of Power: both fields omitempty. -/
def marshalPower (p : Power) : Json :=
  Json.obj
    ((if p.powerAction = "" then [] else [("power_action", Json.str p.powerAction)]) ++
     (if p.power then [("power", Json.bool p.power)] else []))

/-- Standard Go json marshal of BMCBoot: device and the nested action and
result are omitempty; the omitempty on the nested struct field itself has
no effect in Go (a struct is never empty), so the "boot" key is always
emitted. -/
def marshalBMCBoot (b : BMCBoot) : Json :=
  Json.obj
    ((if b.device = "" then [] else [("device", Json.str b.device)]) ++
     [("boot", Json.obj
        ((if b.boot.action = "" then [] else [("action", Json.str b.boot.action)]) ++
         (if b.boot.result then [("result", Json.bool b.boot.result)] else [])))])

/-- json.Marshal(cmd) for the two shapes the dispatch sends (the other
shape returns before marshalling). -/
def marshalPowerCmd : PowerCmdValue → Json
  | PowerCmdValue.powerCmd p => marshalPower p
  | PowerCmdValue.bootCmd b => marshalBMCBoot b
  | PowerCmdValue.otherCmd _ => Json.null

/-- The state of the `cmd` interface variable after the retry loop, seen
through the type assertion `cmd.(map[string]interface)` of host.go line
297: when a send succeeded, SendAndParse ran json.Unmarshal into the
interface variable, so it holds the decoded response — the assertion
yields its fields when that response is a JSON object and nil otherwise;
when no send ever ran (`none`) the variable still holds the original
Power/BMCBoot struct and the assertion also fails, yielding nil. -/
def goAssertStringMap : Option Json → List (String × Json)
  | some (Json.obj fs) => fs
  | _ => []

/-- The type assertion `cmd.(map[string]map[string]interface)` of host.go
line 298: json.Unmarshal into an interface variable only ever produces
map[string]interface values for objects (nested objects are themselves
interface-typed), and the original command is a struct, so this assertion
fails on every reachable value of `cmd` and `bootMap` is always nil. -/
def goAssertNestedStringMap : Option Json →
    List (String × List (String × Json))
  | _ => []

/-- Indexing a possibly-nil Go map of maps: a missing key yields the zero
value, the nil inner map. -/
def jLookupNested (m : List (String × List (String × Json))) (k : String) :
    List (String × Json) :=
  match m with
  | [] => []
  | (k', v) :: rest => if k' = k then v else jLookupNested rest k

/-- Go comparison `v == false` on an interface value: true exactly when
the dynamic type is bool and the value is false (nil compares unequal). -/
def isJsonFalse : Option Json → Bool
  | some (Json.bool false) => true
  | _ => false

/-- Outcome of SendPowerCommand: the request it built (none when the
command shape was rejected before any send), the sends performed, and the
returned error, if any. -/
structure PowerOpResult where
  request : Option Request
  sends : Nat
  outcome : Except String Unit

/-- Client.SendPowerCommand (host.go lines 250-307): picks the URL suffix
by the command's concrete type ("power" for Power, "boot" for BMCBoot,
a hard error otherwise), PUTs the marshalled command to
/hosts/<id>/<suffix> through the retry loop, and then checks the response
through the two type assertions; "Failed Power Operation" is returned when
powerMap["power"] == false or bootMap["boot"]["result"] == false. -/
def sendPowerCommand (h : ForemanHost) (cmd : PowerCmdValue) (retryCount : Int)
    (transport : Nat → Except String Json) : PowerOpResult :=
  match cmd with
  | PowerCmdValue.otherCmd v =>
    { request := none, sends := 0,
      outcome := Except.error ("Invalid Operation: [" ++ v ++ "]") }
  | _ =>
    let suffix : String :=
      match cmd with
      | PowerCmdValue.bootCmd _ => "boot"
      | _ => "power"
    let req : Request :=
      { method := "PUT",
        path := "/hosts/" ++ toString h.foremanObject.id ++ "/" ++ suffix,
        body := marshalPowerCmd cmd }
    match runRetry transport retryCount with
    | (sends, some e, _) =>
      { request := some req, sends := sends, outcome := Except.error e }
    | (sends, none, respOpt) =>
      let powerMap := goAssertStringMap respOpt
      let bootMap := goAssertNestedStringMap respOpt
      if isJsonFalse (jLookup powerMap "power") ||
         isJsonFalse (jLookup (jLookupNested bootMap "boot") "result") then
        { request := some req, sends := sends,
          outcome := Except.error "Failed Power Operation" }
      else
        { request := some req, sends := sends, outcome := Except.ok () }

/-- The request CreateHost builds (host.go lines 320-333) before entering
the retry loop. -/
def createHostRequest (h : ForemanHost) : Request :=
  { method := "POST", path := "/hosts", body := wrapJson "host" (marshalHost h) }

/-! Sample values used by the concrete parts of the claims. -/

/-- Go zero value of ForemanHostgroup. -/
def zeroHostgroup : ForemanHostgroup :=
  { foremanObject := { id := 0, name := "" }, title := "", rootPassword := "",
    architectureId := 0, computeProfileId := 0, domainId := 0, environmentId := 0,
    mediumId := 0, operatingSystemId := 0, parentId := 0, partitionTableId := 0,
    puppetCAProxyId := 0, puppetProxyId := 0, realmId := 0, subnetId := 0,
    pxeLoader := "", hostGroupParameters := [] }

/-- A sample key/value parameter. -/
def kvSample : ForemanKVParameter := { name := "k", value := "v" }

/-- A sample interface attachment. -/
def ifaceSample : ForemanInterfacesAttribute :=
  { zeroInterfacesAttribute with identifier := "eth0", name := "eth0" }

/-- The foreign-key values the round-trip claim ranges over. -/
def fkSample : List Int := [0, 1, 9999]

/-- A host with Id 7, ImageId 1 and HostgroupId 9999: a round-trip input
with every foreign key in fkSample. -/
def c2Host : ForemanHost :=
  { zeroForemanHost with
    foremanObject := { id := 7, name := "h" }, imageId := 1, hostgroupId := 9999 }

/-- Host id 42 for the power-command examples. -/
def host42 : ForemanHost :=
  { zeroForemanHost with foremanObject := { id := 42, name := "h42" } }

/-- A decoded boot response whose nested result field is false. -/
def bootFalseResponse : Json :=
  Json.obj [("boot", Json.obj [("action", Json.str "pxe"), ("result", Json.bool false)])]

/-- The power response of the spec's example: power is false. -/
def powerFalseResponse : Json :=
  Json.obj [("power_action", Json.str "on"), ("power", Json.bool false)]

/-- A successful power-on response. -/
def powerTrueResponse : Json :=
  Json.obj [("power_action", Json.str "on"), ("power", Json.bool true)]

/-- The power-on command of the spec's examples. -/
def powerOnCmd : PowerCmdValue :=
  PowerCmdValue.powerCmd { powerAction := "on", power := false }

/-- The boot command used against the boot-false response. -/
def bootPxeCmd : PowerCmdValue :=
  PowerCmdValue.bootCmd { device := "pxe", boot := { action := "", result := false } }

/-- The host of the CreateHost example: Name h1, DomainId 0, HostgroupId 5. -/
def c5Host : ForemanHost :=
  { zeroForemanHost with foremanObject := { id := 0, name := "h1" }, hostgroupId := 5 }

/-- What decoding the empty wire object yields: every field zero except
the provisioning method, which defaults to build. -/
def emptyDecodedHost : ForemanHost := { zeroForemanHost with method := "build" }

/-- A host whose provisioning method is not the default. -/
def imageMethodHost : ForemanHost := { zeroForemanHost with method := "image" }

/-- An interface attachment flagged for removal. -/
def destroySetInterface : ForemanInterfacesAttribute :=
  { zeroInterfacesAttribute with destroy := true }

/-- A host carrying one parameter, for the nested-collection claims. -/
def paramHost : ForemanHost := { zeroForemanHost with hostParameters := [kvSample] }

/-- A hostgroup carrying one parameter. -/
def paramHostgroup : ForemanHostgroup :=
  { zeroHostgroup with hostGroupParameters := [kvSample] }

/-- A host carrying one interface and one parameter. -/
def collectionHost : ForemanHost :=
  { zeroForemanHost with
    interfacesAttributes := [ifaceSample], hostParameters := [kvSample] }

/-! Helper lemmas. -/

/-- Looking a key up in a concatenated object: the left fields win. -/
theorem jLookup_append (xs ys : List (String × Json)) (k : String) :
    jLookup (xs ++ ys) k =
      (match jLookup xs k with
       | some v => some v
       | none => jLookup ys k) := by
  induction xs with
  | nil => rfl
  | cons p xs ih =>
    rcases p with ⟨k', v⟩
    by_cases hk : k' = k <;> simp [jLookup, hk, ih]

/-- Decoding the marshalled form of a parameter list recovers the list. -/
theorem decodeKVList_map (ps : List ForemanKVParameter) :
    decodeJsonList decodeKVParameter (ps.map marshalKVParameter) = Except.ok ps := by
  induction ps with
  | nil => rfl
  | cons p ps ih =>
    simp only [List.map_cons, decodeJsonList, ih]
    rfl

/-- Characterization of UnmarshalJSON after MarshalJSON for an arbitrary
host: the name, build flag, comment and parameter list come back; every
decoded foreign key is the decode of its encode; the provisioning method
resets to build (the decoder reads the key method, the encoder wrote
provision_method); the id is 0 (the encoder writes no id key); ImageId is
0 (the decoder never reads image_id); the interface list is empty (the
decoder reads the key interfaces, the encoder wrote
interfaces_attributes). -/
theorem decodeHost_marshalHost (h : ForemanHost) :
    decodeHost (marshalHost h) = Except.ok
      { foremanObject := { id := 0, name := h.foremanObject.name },
        build := h.build, method := "build",
        domainId := unmarshalInteger (some (intIdToJSONString h.domainId)),
        domainName := "",
        environmentId := unmarshalInteger (some (intIdToJSONString h.environmentId)),
        hostgroupId := unmarshalInteger (some (intIdToJSONString h.hostgroupId)),
        operatingSystemId := unmarshalInteger (some (intIdToJSONString h.operatingSystemId)),
        mediumId := unmarshalInteger (some (intIdToJSONString h.mediumId)),
        imageId := 0, enableBMC := false, bmcSuccess := false,
        comment := h.comment, interfacesAttributes := [],
        hostParameters := h.hostParameters,
        computeResourceId := unmarshalInteger (some (intIdToJSONString h.computeResourceId)),
        computeProfileId := unmarshalInteger (some (intIdToJSONString h.computeProfileId)) } := by
  by_cases hI : 0 < h.interfacesAttributes.length <;>
    by_cases hP : 0 < h.hostParameters.length <;>
      simp only [Nat.not_lt, Nat.le_zero, List.length_eq_zero] at hI hP <;>
      simp [marshalHost, marshalHostFields, decodeHost, decodeForemanObject,
        decodeHostInterfaces, decodeHostParameterList, decIntField, decStringField,
        jLookup, asBool, asString, hI, hP, decodeKVList_map, Bind.bind, Except.bind]

/-- Decode after encode of a foreign key is the identity on the sampled
values 0, 1 and 9999. -/
theorem fk_sample_round (n : Int) (hn : n ∈ fkSample) :
    unmarshalInteger (some (intIdToJSONString n)) = n := by
  simp only [fkSample, List.mem_cons, List.mem_singleton, List.not_mem_nil,
    or_false] at hn
  rcases hn with rfl | rfl | rfl <;> decide

/-- An Except bind yields ok exactly when both steps do. -/
theorem except_bind_ok {α β : Type} {e : Except String α} {f : α → Except String β}
    {r : β} : (e >>= f) = Except.ok r ↔ ∃ a, e = Except.ok a ∧ f a = Except.ok r := by
  cases e <;> simp [Bind.bind, Except.bind]

/-- A successfully decoded interface element carries exactly the boolean
the wire object held under the removal marker (false when the marker is
absent or null). -/
theorem decodeInterface_destroy (fs : List (String × Json))
    (r : ForemanInterfacesAttribute)
    (hok : decodeInterfacesAttribute (Json.obj fs) = Except.ok r) :
    r.destroy = asBool (jLookup fs "_destroy") := by
  simp only [decodeInterfacesAttribute, except_bind_ok] at hok
  obtain ⟨a1, h1, a2, h2, a3, h3, a4, h4, a5, h5, a6, h6, a7, h7, a8, h8, a9, h9,
    a10, h10, a11, h11, a12, h12, a13, h13, a14, h14, a15, h15, a16, h16,
    a17, h17, a18, h18, hr⟩ := hok
  cases hr
  revert h18
  unfold decBoolField asBool
  cases jLookup fs "_destroy" with
  | none => intro h18; cases h18; rfl
  | some v =>
    cases v <;> intro h18 <;> first | (cases h18; rfl) | cases h18

/-- A successfully decoded host carries the method read from the wire key
method, defaulting to build. -/
theorem decodeHost_method (fs : List (String × Json)) (r : ForemanHost)
    (hok : decodeHost (Json.obj fs) = Except.ok r) :
    r.method = (asString (jLookup fs "method")).getD "build" := by
  simp only [decodeHost, except_bind_ok] at hok
  obtain ⟨a1, h1, a2, h2, a3, h3, hr⟩ := hok
  cases hr
  rfl

/-- The marshalled interface element holds the value true under the key
_destroy exactly when the removal flag is set; the key is absent
otherwise. -/
theorem marshalInterface_destroy_key (ia : ForemanInterfacesAttribute) :
    jLookup (marshalInterfacesAttributeFields ia) "_destroy" =
      (if ia.destroy then some (Json.bool true) else none) := by
  cases hd : ia.destroy <;>
    simp [marshalInterfacesAttributeFields, jLookup_append,
      apply_ite (fun l => jLookup l "_destroy"), jLookup, hd]

/-- CreateHost builds the same request on every control path. -/
theorem createHost_request (h : ForemanHost) (rc : Int)
    (t : Nat → Except String ForemanHost) :
    (createHost h rc t).request = createHostRequest h := by
  unfold createHost createHostRequest
  rcases runRetry t rc with ⟨s, _ | e, _ | a⟩ <;> rfl

/-! Claim theorems. -/

/-- C1: marshalling encodes every foreign key of a Host with the 0-to-""
and n-to-"n" convention — the first two conjuncts evaluate it on image_id
— but the claim's unmarshalling half fails on image_id: UnmarshalJSON
never reads that wire key, so decoding a numeric image_id 7 yields
ImageId 0 where the claim requires 7, while the sibling foreign key
domain_id decodes to 7 as claimed.  This evaluates the code at the
failing input of the image_id decode defect. -/
theorem c1_image_id_not_decoded :
    jLookup (marshalHostFields { zeroForemanHost with imageId := 7 }) "image_id" =
      some (Json.str "7")
    ∧ jLookup (marshalHostFields zeroForemanHost) "image_id" = some (Json.str "")
    ∧ (decodeHost (Json.obj [("image_id", Json.num 7), ("domain_id", Json.num 7)])).map
        (fun h => (h.imageId, h.domainId)) = Except.ok (0, 7) :=
  ⟨rfl, rfl, rfl⟩

/-- C2 counterexample: the host c2Host has Id 7 and ImageId 1, with every
foreign key in the sampled set 0, 1, 9999, yet decode of its encode
returns Id 0 and ImageId 0 — the round trip preserves neither, refuting
the claim at this explicit input. -/
theorem c2_roundtrip_counterexample :
    (decodeHost (marshalHost c2Host)).map (fun h => (h.foremanObject.id, h.imageId)) =
      Except.ok (0, 0)
    ∧ (c2Host.foremanObject.id, c2Host.imageId) = (7, 1) := ⟨rfl, rfl⟩

/-- C2 amended: for every ForemanHost whose foreign-key fields take
values in the set 0, 1, 9999, decode of encode preserves the Name and
every foreign key except ImageId; the decoded Id and ImageId are always 0
(MarshalJSON writes no id key and UnmarshalJSON never reads image_id). -/
theorem c2_roundtrip_amended (h : ForemanHost)
    (hd : h.domainId ∈ fkSample) (he : h.environmentId ∈ fkSample)
    (hg : h.hostgroupId ∈ fkSample) (ho : h.operatingSystemId ∈ fkSample)
    (hm : h.mediumId ∈ fkSample) (_hi : h.imageId ∈ fkSample)
    (hcr : h.computeResourceId ∈ fkSample) (hcp : h.computeProfileId ∈ fkSample) :
    (decodeHost (marshalHost h)).map
      (fun h' => (h'.foremanObject.name, h'.domainId, h'.environmentId, h'.hostgroupId,
                  h'.operatingSystemId, h'.mediumId, h'.computeResourceId,
                  h'.computeProfileId, h'.foremanObject.id, h'.imageId)) =
      Except.ok (h.foremanObject.name, h.domainId, h.environmentId, h.hostgroupId,
                 h.operatingSystemId, h.mediumId, h.computeResourceId,
                 h.computeProfileId, 0, 0) := by
  rw [decodeHost_marshalHost]
  simp [Except.map, fk_sample_round _ hd, fk_sample_round _ he, fk_sample_round _ hg,
    fk_sample_round _ ho, fk_sample_round _ hm, fk_sample_round _ hcr,
    fk_sample_round _ hcp]

/-- C2 witness: the amended round trip evaluated at c2Host. -/
theorem c2_roundtrip_amended_witness :
    c2Host.domainId ∈ fkSample ∧ c2Host.imageId ∈ fkSample
    ∧ c2Host.hostgroupId ∈ fkSample
    ∧ (decodeHost (marshalHost c2Host)).map
      (fun h' => (h'.foremanObject.name, h'.domainId, h'.environmentId, h'.hostgroupId,
                  h'.operatingSystemId, h'.mediumId, h'.computeResourceId,
                  h'.computeProfileId, h'.foremanObject.id, h'.imageId)) =
      Except.ok ("h", 0, 0, 9999, 0, 0, 0, 0, 0, 0) :=
  ⟨by decide, by decide, by decide,
   c2_roundtrip_amended c2Host (by decide) (by decide) (by decide) (by decide)
     (by decide) (by decide) (by decide) (by decide)⟩

/-- C3: each retry-accepting mutating operation (CreateHost, UpdateHost,
SendPowerCommand), run with budget 3 against a transport failing on the
first two sends, succeeds after exactly 3 sends; run with budget 2
against an always-failing transport, it performs exactly 2 sends and
returns the error observed on the 2nd attempt (attempt index 1). -/
theorem c3_retry_policy :
    ∀ (e : String) (errs : Nat → String) (hIn hResp : ForemanHost),
      ((createHost hIn 3 (fun i => if i < 2 then Except.error e else Except.ok hResp)).sends = 3
        ∧ (createHost hIn 3 (fun i => if i < 2 then Except.error e else Except.ok hResp)).result
            = Except.ok hResp)
      ∧ ((createHost hIn 2 (fun i => Except.error (errs i))).sends = 2
        ∧ (createHost hIn 2 (fun i => Except.error (errs i))).result = Except.error (errs 1))
      ∧ ((updateHost hIn 3 (fun i => if i < 2 then Except.error e else Except.ok hResp)).sends = 3
        ∧ (updateHost hIn 3 (fun i => if i < 2 then Except.error e else Except.ok hResp)).result
            = Except.ok hResp)
      ∧ ((updateHost hIn 2 (fun i => Except.error (errs i))).sends = 2
        ∧ (updateHost hIn 2 (fun i => Except.error (errs i))).result = Except.error (errs 1))
      ∧ ((sendPowerCommand hIn powerOnCmd 3
            (fun i => if i < 2 then Except.error e else Except.ok powerTrueResponse)).sends = 3
        ∧ (sendPowerCommand hIn powerOnCmd 3
            (fun i => if i < 2 then Except.error e else Except.ok powerTrueResponse)).outcome
            = Except.ok ())
      ∧ ((sendPowerCommand hIn powerOnCmd 2 (fun i => Except.error (errs i))).sends = 2
        ∧ (sendPowerCommand hIn powerOnCmd 2 (fun i => Except.error (errs i))).outcome
            = Except.error (errs 1)) :=
  fun _ _ _ _ => ⟨⟨rfl, rfl⟩, ⟨rfl, rfl⟩, ⟨rfl, rfl⟩, ⟨rfl, rfl⟩, ⟨rfl, rfl⟩, ⟨rfl, rfl⟩⟩

/-- C4: the power half of the claim holds — the Power command against
host 42 is PUT to /hosts/42/power with body the serialized command, and a
power false response yields the operation-failed error; a command of any
other type errors with zero sends — but the boot half fails on the code:
a successful send whose decoded boot response carries result false
returns no error, because the assertion of host.go line 298 never matches
the output of a json decode into an interface value, so bootMap is always
nil.  This evaluates the code at that failing input. -/
theorem c4_boot_result_check_dead :
    ((sendPowerCommand host42 bootPxeCmd 1 (fun _ => Except.ok bootFalseResponse)).sends = 1
      ∧ (sendPowerCommand host42 bootPxeCmd 1
          (fun _ => Except.ok bootFalseResponse)).outcome = Except.ok ())
    ∧ ((sendPowerCommand host42 powerOnCmd 1
          (fun _ => Except.ok powerFalseResponse)).request =
        some { method := "PUT", path := "/hosts/42/power",
               body := Json.obj [("power_action", Json.str "on")] }
      ∧ (sendPowerCommand host42 powerOnCmd 1
          (fun _ => Except.ok powerFalseResponse)).outcome =
          Except.error "Failed Power Operation")
    ∧ ((sendPowerCommand host42 (PowerCmdValue.otherCmd "5") 1
          (fun _ => Except.ok powerFalseResponse)).sends = 0
      ∧ (sendPowerCommand host42 (PowerCmdValue.otherCmd "5") 1
          (fun _ => Except.ok powerFalseResponse)).outcome =
          Except.error "Invalid Operation: [5]") :=
  ⟨⟨rfl, rfl⟩, ⟨rfl, rfl⟩, ⟨rfl, rfl⟩⟩

/-- C5: CreateHost always POSTs to /hosts a body that wraps the
marshalled host under the single top-level key host; for the input host
with Name h1, DomainId 0 and HostgroupId 5, the wrapped object carries
name "h1", domain_id the empty string and hostgroup_id the string "5". -/
theorem c5_create_host_wraps_entity :
    (∀ (h : ForemanHost) (rc : Int) (t : Nat → Except String ForemanHost),
      (createHost h rc t).request =
        { method := "POST", path := "/hosts",
          body := Json.obj [("host", Json.obj (marshalHostFields h))] })
    ∧ jLookup (marshalHostFields c5Host) "name" = some (Json.str "h1")
    ∧ jLookup (marshalHostFields c5Host) "domain_id" = some (Json.str "")
    ∧ jLookup (marshalHostFields c5Host) "hostgroup_id" = some (Json.str "5") :=
  ⟨fun h rc t => createHost_request h rc t, rfl, rfl, rfl⟩

/-- C6 counterexample: for the host and hostgroup parameter collections
the write-side and read-side wire keys are not distinct — the encoder
places the parameters under host_parameters_attributes (respectively
group_parameters_attributes) and the decoder reads them back from that
very same key, refuting "distinct from the read-side key" for these two
collections at this explicit input. -/
theorem c6_param_key_counterexample :
    jLookup (marshalHostFields paramHost) "host_parameters_attributes" =
      some (Json.arr [marshalKVParameter kvSample])
    ∧ (decodeHost (Json.obj [("host_parameters_attributes",
          Json.arr [marshalKVParameter kvSample])])).map
        (fun h => h.hostParameters) = Except.ok [kvSample]
    ∧ jLookup (marshalHostgroupFields paramHostgroup) "group_parameters_attributes" =
      some (Json.arr [marshalKVParameter kvSample])
    ∧ (decodeHostgroup (Json.obj [("group_parameters_attributes",
          Json.arr [marshalKVParameter kvSample])])).map
        (fun g => g.hostGroupParameters) = Except.ok [kvSample] :=
  ⟨rfl, rfl, rfl, rfl⟩

/-- C6 amended: encoding places every non-empty nested collection under
its write-side wire key (interfaces_attributes,
host_parameters_attributes, group_parameters_attributes); for the host
interfaces that write-side key is distinct from the read-side key
interfaces — an object carrying data only under interfaces_attributes
decodes to an empty interface list while the same data under interfaces
decodes to the list — whereas for host and hostgroup parameters the
write-side and read-side keys coincide. -/
theorem c6_collection_keys_amended (h : ForemanHost) (hg : ForemanHostgroup)
    (hI : 0 < h.interfacesAttributes.length) (hP : 0 < h.hostParameters.length)
    (hG : 0 < hg.hostGroupParameters.length) :
    jLookup (marshalHostFields h) "interfaces_attributes" =
      some (Json.arr (h.interfacesAttributes.map marshalInterfacesAttribute))
    ∧ jLookup (marshalHostFields h) "interfaces" = none
    ∧ jLookup (marshalHostFields h) "host_parameters_attributes" =
      some (Json.arr (h.hostParameters.map marshalKVParameter))
    ∧ jLookup (marshalHostgroupFields hg) "group_parameters_attributes" =
      some (Json.arr (hg.hostGroupParameters.map marshalKVParameter))
    ∧ (decodeHost (Json.obj [("interfaces_attributes",
          Json.arr [marshalInterfacesAttribute ifaceSample])])).map
        (fun r => r.interfacesAttributes) = Except.ok []
    ∧ (decodeHost (Json.obj [("interfaces",
          Json.arr [marshalInterfacesAttribute ifaceSample])])).map
        (fun r => r.interfacesAttributes) = Except.ok [ifaceSample] := by
  refine ⟨?_, ?_, ?_, ?_, rfl, rfl⟩ <;>
    simp [marshalHostFields, marshalHostgroupFields, jLookup, if_pos hI, if_pos hP,
      if_pos hG]

/-- C6 witness: the amended statement evaluated on a host carrying one
interface and one parameter and a hostgroup carrying one parameter. -/
theorem c6_collection_keys_witness :
    0 < collectionHost.interfacesAttributes.length
    ∧ 0 < collectionHost.hostParameters.length
    ∧ 0 < paramHostgroup.hostGroupParameters.length
    ∧ (jLookup (marshalHostFields collectionHost) "interfaces_attributes" =
        some (Json.arr (collectionHost.interfacesAttributes.map marshalInterfacesAttribute))
      ∧ jLookup (marshalHostFields collectionHost) "interfaces" = none
      ∧ jLookup (marshalHostFields collectionHost) "host_parameters_attributes" =
        some (Json.arr (collectionHost.hostParameters.map marshalKVParameter))
      ∧ jLookup (marshalHostgroupFields paramHostgroup) "group_parameters_attributes" =
        some (Json.arr (paramHostgroup.hostGroupParameters.map marshalKVParameter))
      ∧ (decodeHost (Json.obj [("interfaces_attributes",
            Json.arr [marshalInterfacesAttribute ifaceSample])])).map
          (fun r => r.interfacesAttributes) = Except.ok []
      ∧ (decodeHost (Json.obj [("interfaces",
            Json.arr [marshalInterfacesAttribute ifaceSample])])).map
          (fun r => r.interfacesAttributes) = Except.ok [ifaceSample]) :=
  ⟨by decide, by decide, by decide,
   c6_collection_keys_amended collectionHost paramHostgroup (by decide) (by decide)
     (by decide)⟩

/-- C7: marshalling a host whose interface and parameter collections are
empty emits no wire key for either collection, and likewise a hostgroup
with an empty parameter collection — the emitted objects contain no entry
under those keys at all. -/
theorem c7_empty_collections_omitted (h : ForemanHost) (hg : ForemanHostgroup)
    (hI : h.interfacesAttributes = []) (hP : h.hostParameters = [])
    (hG : hg.hostGroupParameters = []) :
    "interfaces_attributes" ∉ (marshalHostFields h).map Prod.fst
    ∧ "host_parameters_attributes" ∉ (marshalHostFields h).map Prod.fst
    ∧ "group_parameters_attributes" ∉ (marshalHostgroupFields hg).map Prod.fst := by
  simp [marshalHostFields, marshalHostgroupFields, hI, hP, hG]

/-- C7 witness: the empty-collection omission evaluated at the zero host
and hostgroup. -/
theorem c7_empty_collections_witness :
    zeroForemanHost.interfacesAttributes = [] ∧ zeroForemanHost.hostParameters = []
    ∧ zeroHostgroup.hostGroupParameters = []
    ∧ ("interfaces_attributes" ∉ (marshalHostFields zeroForemanHost).map Prod.fst
      ∧ "host_parameters_attributes" ∉ (marshalHostFields zeroForemanHost).map Prod.fst
      ∧ "group_parameters_attributes" ∉ (marshalHostgroupFields zeroHostgroup).map Prod.fst) :=
  ⟨rfl, rfl, rfl, c7_empty_collections_omitted zeroForemanHost zeroHostgroup rfl rfl rfl⟩

/-- C8 counterexample: decoding a host response whose interfaces element
carries the wire entry _destroy true yields an interface with the Destroy
flag set — the decoder does set the flag, refuting "decoding a host
response never sets the Destroy flag" at this explicit input. -/
theorem c8_destroy_counterexample :
    (decodeHost (Json.obj [("interfaces",
        Json.arr [Json.obj [("_destroy", Json.bool true)]])])).map
      (fun h => h.interfacesAttributes.map (fun ia => ia.destroy)) =
      Except.ok [true] := rfl

/-- C8 amended: serializing an interface attachment emits the key
_destroy with value true exactly when the Destroy flag is set and omits
the key when the flag is unset (first half of the claim, unchanged); a
successfully decoded interface element carries the Destroy flag exactly
when its wire object holds _destroy true — in particular a response
without the marker (as the server's responses are) decodes with the flag
unset. -/
theorem c8_destroy_marker_amended (ia : ForemanInterfacesAttribute)
    (fs : List (String × Json)) (r : ForemanInterfacesAttribute)
    (hok : decodeInterfacesAttribute (Json.obj fs) = Except.ok r) :
    jLookup (marshalInterfacesAttributeFields ia) "_destroy" =
      (if ia.destroy then some (Json.bool true) else none)
    ∧ r.destroy = asBool (jLookup fs "_destroy") :=
  ⟨marshalInterface_destroy_key ia, decodeInterface_destroy fs r hok⟩

/-- C8 witness: the amended statement evaluated on the flagged interface
and the wire element carrying _destroy true. -/
theorem c8_destroy_marker_witness :
    decodeInterfacesAttribute (Json.obj [("_destroy", Json.bool true)]) =
      Except.ok destroySetInterface
    ∧ (jLookup (marshalInterfacesAttributeFields destroySetInterface) "_destroy" =
        (if destroySetInterface.destroy then some (Json.bool true) else none)
      ∧ destroySetInterface.destroy =
        asBool (jLookup [("_destroy", Json.bool true)] "_destroy")) :=
  ⟨rfl, c8_destroy_marker_amended destroySetInterface [("_destroy", Json.bool true)]
    destroySetInterface rfl⟩

/-- C9: with a retry budget of at most 0, CreateHost, UpdateHost and
SendPowerCommand (with either valid command shape) perform zero sends
through the transport and return success — the host operations return the
zero-valued host with no error and the power dispatch returns no error —
even though no request was ever sent. -/
theorem c9_nonpositive_budget_no_send (b : Int) (hb : b ≤ 0) (h : ForemanHost)
    (t : Nat → Except String ForemanHost) (tj : Nat → Except String Json)
    (p : Power) (bt : BMCBoot) :
    ((createHost h b t).sends = 0 ∧ (createHost h b t).result = Except.ok zeroForemanHost)
    ∧ ((updateHost h b t).sends = 0 ∧ (updateHost h b t).result = Except.ok zeroForemanHost)
    ∧ ((sendPowerCommand h (PowerCmdValue.powerCmd p) b tj).sends = 0
        ∧ (sendPowerCommand h (PowerCmdValue.powerCmd p) b tj).outcome = Except.ok ())
    ∧ ((sendPowerCommand h (PowerCmdValue.bootCmd bt) b tj).sends = 0
        ∧ (sendPowerCommand h (PowerCmdValue.bootCmd bt) b tj).outcome = Except.ok ()) := by
  have hbn : b.toNat = 0 := Int.toNat_of_nonpos hb
  simp [createHost, updateHost, sendPowerCommand, runRetry, retryLoop, hbn,
    goAssertStringMap, goAssertNestedStringMap, jLookup, jLookupNested, isJsonFalse]

/-- C9 witness: the zero-send success evaluated at budget -1 with an
always-failing transport. -/
theorem c9_nonpositive_budget_witness :
    ((-1 : Int) ≤ 0)
    ∧ ((createHost zeroForemanHost (-1) (fun _ => Except.error "e")).sends = 0
      ∧ (createHost zeroForemanHost (-1) (fun _ => Except.error "e")).result =
          Except.ok zeroForemanHost)
    ∧ ((sendPowerCommand zeroForemanHost powerOnCmd (-1)
          (fun _ => Except.error "e")).sends = 0
      ∧ (sendPowerCommand zeroForemanHost powerOnCmd (-1)
          (fun _ => Except.error "e")).outcome = Except.ok ()) :=
  ⟨by decide,
   (c9_nonpositive_budget_no_send (-1) (by decide) zeroForemanHost
      (fun _ => Except.error "e") (fun _ => Except.error "e")
      { powerAction := "on", power := false }
      { device := "", boot := { action := "", result := false } }).1,
   (c9_nonpositive_budget_no_send (-1) (by decide) zeroForemanHost
      (fun _ => Except.error "e") (fun _ => Except.error "e")
      { powerAction := "on", power := false }
      { device := "", boot := { action := "", result := false } }).2.2.1⟩

/-- C10: a successfully decoded host whose wire object lacks a
string-valued key method gets the default provisioning method build; and
since the marshaller writes the method under provision_method (never
under method), decode of encode always yields method build, so any
non-build method value is lost across an encode-then-decode round
trip. -/
theorem c10_method_default_build (fs : List (String × Json)) (r : ForemanHost)
    (h : ForemanHost) (hok : decodeHost (Json.obj fs) = Except.ok r)
    (hnm : asString (jLookup fs "method") = none) :
    r.method = "build"
    ∧ (decodeHost (marshalHost h)).map (fun r' => r'.method) = Except.ok "build" := by
  constructor
  · rw [decodeHost_method fs r hok, hnm]
    rfl
  · rw [decodeHost_marshalHost]
    rfl

/-- C10 witness: the method default evaluated on the empty wire object
and on the encode-then-decode of a host with method image. -/
theorem c10_method_default_witness :
    decodeHost (Json.obj []) = Except.ok emptyDecodedHost
    ∧ asString (jLookup ([] : List (String × Json)) "method") = none
    ∧ (emptyDecodedHost.method = "build"
      ∧ (decodeHost (marshalHost imageMethodHost)).map (fun r' => r'.method) =
          Except.ok "build") :=
  ⟨rfl, rfl, c10_method_default_build [] emptyDecodedHost imageMethodHost rfl rfl⟩

end Foreman
